import Mathlib

/-!
Shallow embedding of `eztw/tdh.py` (TDH metadata decoding) and proofs about it.

Modelling conventions:
* Buffers are `List Nat`, one element per wide character (the Python code uses
  byte offsets into `ctypes` buffers and reads UTF-16 units; the claims under
  study are granularity-independent, so one list element stands for one
  character cell and offsets count cells).
* `ctypes.wstring_at(addressof(buf) + offset)` scans memory (not just the
  buffer) until a NUL character, so the reader is modelled over the buffer
  plus the adjacent memory `tail` that follows it.
* Python exceptions are an `Except` error type.  `EztwTdhException` instances
  (the recoverable decode errors of the module) are distinct constructors from
  the Python builtin `AssertionError` / `IndexError` / `ValueError` crashes,
  and `EztwError.isEztwTdhException` tells them apart.
* Machine integers (USHORT/ULONG/ULONGLONG) are `Nat`; the module only masks
  and compares them, so no wrap-around arithmetic occurs in the modelled code.
-/

namespace Eztw

/-- Errors of the module.  The first five model `EztwTdhException` (a dedicated
exception class raised by `tdh.py`); the last three model Python builtin
exceptions that escape the module un-wrapped. -/
inductive EztwError where
  | stringOffsetOutOfBounds  -- "Wchar string out of bounds"
  | arrayOutOfBounds         -- "Array of <cls> out of bounds"
  | fieldIndexOutOfBounds    -- "... length/count field index too high"
  | sizeQueryFailed          -- phase-1 negotiation "failed with error rc"
  | fillFailed               -- phase-2 negotiation "failed with error rc"
  | assertionError           -- Python AssertionError (failed assert statement)
  | indexError               -- Python IndexError (list index out of range)
  | valueError               -- Python ValueError (enum lookup failure)
deriving DecidableEq

/-- Whether the error is an instance of the module's `EztwTdhException` class
(as opposed to a Python builtin exception). -/
def EztwError.isEztwTdhException : EztwError → Bool
  | .stringOffsetOutOfBounds => true
  | .arrayOutOfBounds => true
  | .fieldIndexOutOfBounds => true
  | .sizeQueryFailed => true
  | .fillFailed => true
  | .assertionError => false
  | .indexError => false
  | .valueError => false

/-- The characters `ctypes.wstring_at` collects when started at `offset`
inside `buf` with memory contents `tail` lying beyond the buffer: everything
up to (and not including) the first NUL character, with no bound at the
buffer's end. -/
def wstring_at_body (buf tail : List Nat) (offset : Nat) : List Nat :=
  List.takeWhile (fun c => c != 0) (buf.drop offset ++ tail)

/-- Function `read_wstring_at(buf, offset)` from `tdh.py`:
raises "Wchar string out of bounds" when `offset > len(buf)`, otherwise
returns `ctypes.wstring_at(addressof(buf) + offset)`. -/
def read_wstring_at (buf tail : List Nat) (offset : Nat) : Except EztwError (List Nat) :=
  if offset > buf.length then .error .stringOffsetOutOfBounds
  else .ok (wstring_at_body buf tail offset)

/-- One step of the generator `iterate_array_of(buf, offset, cls, array_size)`:
starting at `cur`, for `n` remaining records, yield the slice
`buf[cur:cur+record_size]` unless `cur + record_size > len(buf)`, in which
case raise "Array of ... out of bounds".  The first component lists the
records yielded to the consumer before the generator finished or raised. -/
def iterate_array_loop (buf : List Nat) (record_size : Nat) :
    Nat → Nat → List (List Nat) × Option EztwError
  | _, 0 => ([], none)
  | cur, n + 1 =>
    -- new_idx = cur + record_size
    if cur + record_size > buf.length then ([], some .arrayOutOfBounds)
    else
      ((buf.drop cur).take record_size ::
         (iterate_array_loop buf record_size (cur + record_size) n).1,
       (iterate_array_loop buf record_size (cur + record_size) n).2)

/-- Function `iterate_array_of(buf, offset, cls, array_size)` from `tdh.py`, with
`record_size = ctypes.sizeof(cls)`. -/
def iterate_array_of (buf : List Nat) (offset record_size n : Nat) :
    List (List Nat) × Option EztwError :=
  iterate_array_loop buf record_size offset n

/-- Constant `winerror.ERROR_SUCCESS`. -/
def ERROR_SUCCESS : Nat := 0

/-- Constant `winerror.ERROR_INSUFFICIENT_BUFFER`. -/
def ERROR_INSUFFICIENT_BUFFER : Nat := 122

/-- An external TDH query operation, as observed by the two-phase buffer
negotiation pattern of `tdh_enumerate_providers` / `tdh_get_provider_events`:
the status and reported size of the first (null-buffer) call, and the status
and written content of the second call as a function of the allocated buffer
size. -/
structure QueryOp where
  q1_status : Nat
  q1_size : Nat
  q2_status : Nat → Nat
  q2_content : Nat → List Nat

/-- The two-phase "query required size, then fill" pattern repeated verbatim in
`tdh_enumerate_providers` (lines 230-239) and `tdh_get_provider_events`
(lines 289-300 and 307-321): call with a null buffer, demand
`ERROR_INSUFFICIENT_BUFFER`, allocate `create_string_buffer(size.value)`
(zero-initialised, exactly the reported size), call again and demand
`ERROR_SUCCESS`.  The external operation writes its content into the
allocated buffer (modelled by truncating/zero-padding to the buffer size). -/
def negotiate_buffer (op : QueryOp) : Except EztwError (List Nat) :=
  if op.q1_status ≠ ERROR_INSUFFICIENT_BUFFER then .error .sizeQueryFailed
  else if op.q2_status op.q1_size ≠ ERROR_SUCCESS then .error .fillFailed
  else
    .ok ((op.q2_content op.q1_size).take op.q1_size
         ++ List.replicate (op.q1_size - (op.q2_content op.q1_size).length) 0)

/-- The `TDH_PROPERTY_FLAGS` bit constants. -/
def TDH_PROPERTY_FLAGS.PropertyStruct : Nat := 0x1
def TDH_PROPERTY_FLAGS.PropertyParamLength : Nat := 0x2
def TDH_PROPERTY_FLAGS.PropertyParamCount : Nat := 0x4
def TDH_PROPERTY_FLAGS.PropertyWBEMXmlFragment : Nat := 0x8
def TDH_PROPERTY_FLAGS.PropertyParamFixedLength : Nat := 0x10
def TDH_PROPERTY_FLAGS.PropertyParamFixedCount : Nat := 0x20
def TDH_PROPERTY_FLAGS.PropertyHasTags : Nat := 0x40
def TDH_PROPERTY_FLAGS.PropertyHasCustomSchema : Nat := 0x80

/-- The `TDH_INTYPE` enum of `tdh.py` (one constructor per member). -/
inductive TDH_INTYPE where
  | INTYPE_NULL
  | INTYPE_UNICODESTRING
  | INTYPE_ANSISTRING
  | INTYPE_INT8
  | INTYPE_UINT8
  | INTYPE_INT16
  | INTYPE_UINT16
  | INTYPE_INT32
  | INTYPE_UINT32
  | INTYPE_INT64
  | INTYPE_UINT64
  | INTYPE_FLOAT
  | INTYPE_DOUBLE
  | INTYPE_BOOLEAN
  | INTYPE_BINARY
  | INTYPE_GUID
  | INTYPE_POINTER
  | INTYPE_FILETIME
  | INTYPE_SYSTEMTIME
  | INTYPE_SID
  | INTYPE_HEXINT32
  | INTYPE_HEXINT64
  | INTYPE_MANIFEST_COUNTEDSTRING
  | INTYPE_MANIFEST_COUNTEDANSISTRING
  | INTYPE_RESERVED24
  | INTYPE_MANIFEST_COUNTEDBINARY
  | INTYPE_COUNTEDSTRING
  | INTYPE_COUNTEDANSISTRING
  | INTYPE_REVERSEDCOUNTEDSTRING
  | INTYPE_REVERSEDCOUNTEDANSISTRING
  | INTYPE_NONNULLTERMINATEDSTRING
  | INTYPE_NONNULLTERMINATEDANSISTRING
  | INTYPE_UNICODECHAR
  | INTYPE_ANSICHAR
  | INTYPE_SIZET
  | INTYPE_HEXDUMP
  | INTYPE_WBEMSID
deriving DecidableEq

/-- The numeric value of each `TDH_INTYPE` member. -/
def TDH_INTYPE.value : TDH_INTYPE → Nat
  | .INTYPE_NULL => 0
  | .INTYPE_UNICODESTRING => 1
  | .INTYPE_ANSISTRING => 2
  | .INTYPE_INT8 => 3
  | .INTYPE_UINT8 => 4
  | .INTYPE_INT16 => 5
  | .INTYPE_UINT16 => 6
  | .INTYPE_INT32 => 7
  | .INTYPE_UINT32 => 8
  | .INTYPE_INT64 => 9
  | .INTYPE_UINT64 => 10
  | .INTYPE_FLOAT => 11
  | .INTYPE_DOUBLE => 12
  | .INTYPE_BOOLEAN => 13
  | .INTYPE_BINARY => 14
  | .INTYPE_GUID => 15
  | .INTYPE_POINTER => 16
  | .INTYPE_FILETIME => 17
  | .INTYPE_SYSTEMTIME => 18
  | .INTYPE_SID => 19
  | .INTYPE_HEXINT32 => 20
  | .INTYPE_HEXINT64 => 21
  | .INTYPE_MANIFEST_COUNTEDSTRING => 22
  | .INTYPE_MANIFEST_COUNTEDANSISTRING => 23
  | .INTYPE_RESERVED24 => 24
  | .INTYPE_MANIFEST_COUNTEDBINARY => 25
  | .INTYPE_COUNTEDSTRING => 26
  | .INTYPE_COUNTEDANSISTRING => 27
  | .INTYPE_REVERSEDCOUNTEDSTRING => 28
  | .INTYPE_REVERSEDCOUNTEDANSISTRING => 29
  | .INTYPE_NONNULLTERMINATEDSTRING => 30
  | .INTYPE_NONNULLTERMINATEDANSISTRING => 31
  | .INTYPE_UNICODECHAR => 32
  | .INTYPE_ANSICHAR => 33
  | .INTYPE_SIZET => 34
  | .INTYPE_HEXDUMP => 35
  | .INTYPE_WBEMSID => 36

/-- All members of `TDH_INTYPE` (`TDH_INTYPE.__members__.values()`). -/
def TDH_INTYPE.members : List TDH_INTYPE :=
  [.INTYPE_NULL, .INTYPE_UNICODESTRING, .INTYPE_ANSISTRING, .INTYPE_INT8,
   .INTYPE_UINT8, .INTYPE_INT16, .INTYPE_UINT16, .INTYPE_INT32, .INTYPE_UINT32,
   .INTYPE_INT64, .INTYPE_UINT64, .INTYPE_FLOAT, .INTYPE_DOUBLE,
   .INTYPE_BOOLEAN, .INTYPE_BINARY, .INTYPE_GUID, .INTYPE_POINTER,
   .INTYPE_FILETIME, .INTYPE_SYSTEMTIME, .INTYPE_SID, .INTYPE_HEXINT32,
   .INTYPE_HEXINT64, .INTYPE_MANIFEST_COUNTEDSTRING,
   .INTYPE_MANIFEST_COUNTEDANSISTRING, .INTYPE_RESERVED24,
   .INTYPE_MANIFEST_COUNTEDBINARY, .INTYPE_COUNTEDSTRING,
   .INTYPE_COUNTEDANSISTRING, .INTYPE_REVERSEDCOUNTEDSTRING,
   .INTYPE_REVERSEDCOUNTEDANSISTRING, .INTYPE_NONNULLTERMINATEDSTRING,
   .INTYPE_NONNULLTERMINATEDANSISTRING, .INTYPE_UNICODECHAR, .INTYPE_ANSICHAR,
   .INTYPE_SIZET, .INTYPE_HEXDUMP, .INTYPE_WBEMSID]

/-- Lookup `TDH_INTYPE(v)`: the enum member with value `v`, or a `ValueError`
(modelled as `none`) when no member has that value. -/
def TDH_INTYPE.ofValue : Nat → Option TDH_INTYPE
  | 0 => some .INTYPE_NULL
  | 1 => some .INTYPE_UNICODESTRING
  | 2 => some .INTYPE_ANSISTRING
  | 3 => some .INTYPE_INT8
  | 4 => some .INTYPE_UINT8
  | 5 => some .INTYPE_INT16
  | 6 => some .INTYPE_UINT16
  | 7 => some .INTYPE_INT32
  | 8 => some .INTYPE_UINT32
  | 9 => some .INTYPE_INT64
  | 10 => some .INTYPE_UINT64
  | 11 => some .INTYPE_FLOAT
  | 12 => some .INTYPE_DOUBLE
  | 13 => some .INTYPE_BOOLEAN
  | 14 => some .INTYPE_BINARY
  | 15 => some .INTYPE_GUID
  | 16 => some .INTYPE_POINTER
  | 17 => some .INTYPE_FILETIME
  | 18 => some .INTYPE_SYSTEMTIME
  | 19 => some .INTYPE_SID
  | 20 => some .INTYPE_HEXINT32
  | 21 => some .INTYPE_HEXINT64
  | 22 => some .INTYPE_MANIFEST_COUNTEDSTRING
  | 23 => some .INTYPE_MANIFEST_COUNTEDANSISTRING
  | 24 => some .INTYPE_RESERVED24
  | 25 => some .INTYPE_MANIFEST_COUNTEDBINARY
  | 26 => some .INTYPE_COUNTEDSTRING
  | 27 => some .INTYPE_COUNTEDANSISTRING
  | 28 => some .INTYPE_REVERSEDCOUNTEDSTRING
  | 29 => some .INTYPE_REVERSEDCOUNTEDANSISTRING
  | 30 => some .INTYPE_NONNULLTERMINATEDSTRING
  | 31 => some .INTYPE_NONNULLTERMINATEDANSISTRING
  | 32 => some .INTYPE_UNICODECHAR
  | 33 => some .INTYPE_ANSICHAR
  | 34 => some .INTYPE_SIZET
  | 35 => some .INTYPE_HEXDUMP
  | 36 => some .INTYPE_WBEMSID
  | _ => none

/-- Constant `TDH_INTYPE_MAX_VALUE = max([x.value for x in TDH_INTYPE.__members__.values()])`. -/
def TDH_INTYPE_MAX_VALUE : Nat :=
  (TDH_INTYPE.members.map TDH_INTYPE.value).foldr max 0

/-- Textual GUIDs as produced by `str(GUID)` (the `GUID` helper class lives in
`eztw/guid.py`, outside the decoding module; its text is left abstract). -/
abbrev GUIDstr := List Nat

/-- Struct `EVENT_DESCRIPTOR` (ctypes): Id, Version, Channel, Level, Opcode,
Task, Keyword. -/
structure EVENT_DESCRIPTOR where
  Id : Nat
  Version : Nat
  Channel : Nat
  Level : Nat
  Opcode : Nat
  Task : Nat
  Keyword : Nat
deriving DecidableEq

/-- Struct `TRACE_EVENT_INFO` (ctypes), GUID fields kept as text. -/
structure TRACE_EVENT_INFO where
  ProviderGuid : GUIDstr
  EventGuid : GUIDstr
  EventDescriptor : EVENT_DESCRIPTOR
  DecodingSource : Nat
  ProviderNameOffset : Nat
  LevelNameOffset : Nat
  ChannelNameOffset : Nat
  KeywordsNameOffset : Nat
  TaskNameOffset : Nat
  OpcodeNameOffset : Nat
  EventMessageOffset : Nat
  ProviderMessageOffset : Nat
  BinaryXMLOffset : Nat
  BinaryXMLSize : Nat
  EventNameOffset : Nat
  EventAttributesOffset : Nat
  PropertyCount : Nat
  TopLevelPropertyCount : Nat
  Flags : Nat
deriving DecidableEq

/-- Struct `EVENT_PROPERTY_INFO` (ctypes), with its union flattened
(`InType`/`OutType`/`MapNameOffset`). -/
structure EVENT_PROPERTY_INFO where
  Flags : Nat
  NameOffset : Nat
  InType : Nat
  OutType : Nat
  MapNameOffset : Nat
  count : Nat
  length : Nat
  Reserved : Nat
deriving DecidableEq

/-- The value stored in a `TdhEventField`'s `length`/`count` slot: in Python
this is either the raw integer of a fixed length/count, or the (string) name
of the earlier field holding the dynamic value. -/
inductive FieldLen where
  | lit (n : Nat)
  | ref (name : List Nat)
deriving DecidableEq

/-- A field's `type` slot: either a `TDH_INTYPE` member, or (for codes above
`TDH_INTYPE_MAX_VALUE`) the raw integer kept as-is. -/
inductive FieldType where
  | known (t : TDH_INTYPE)
  | raw (v : Nat)
deriving DecidableEq

/-- The `TdhEventField` dataclass: name, type, optional length, optional
count. -/
structure TdhEventField where
  name : List Nat
  type : FieldType
  length : Option FieldLen
  count : Option FieldLen
deriving DecidableEq

/-- The `TdhEvent` dataclass.  (The Python annotation declares `name: str`,
but the decoder stores `None` when neither name offset is set, so the slot is
modelled as optional.) -/
structure TdhEvent where
  provider_guid : GUIDstr
  id : Nat
  version : Nat
  name : Option (List Nat)
  keyword : Nat
  fields : List TdhEventField
deriving DecidableEq

/-- The length-resolution step of the field loop in `tdh_get_provider_events`
(lines 344-354), given the fields decoded so far:

* `PropertyParamFixedLength` flag set: keep the raw `length` value.
* else `PropertyParamLength` flag set: `length` is an index; raise the
  "length field index too high" `EztwTdhException` when
  `length_index > len(fields)`, otherwise evaluate `fields[length_index].name`
  (which, as in Python, is an `IndexError` crash when the index is not below
  `len(fields)`).
* else: `None`. -/
def resolve_length (fields : List TdhEventField) (rec : EVENT_PROPERTY_INFO) :
    Except EztwError (Option FieldLen) :=
  if rec.Flags &&& TDH_PROPERTY_FLAGS.PropertyParamFixedLength ≠ 0 then
    .ok (some (.lit rec.length))
  else if rec.Flags &&& TDH_PROPERTY_FLAGS.PropertyParamLength ≠ 0 then
    if rec.length > fields.length then .error .fieldIndexOutOfBounds
    else
      match fields.get? rec.length with
      | some f => .ok (some (.ref f.name))
      | none => .error .indexError
  else .ok none

/-- The count-resolution step of the field loop in `tdh_get_provider_events`
(lines 355-365), symmetric to `resolve_length`. -/
def resolve_count (fields : List TdhEventField) (rec : EVENT_PROPERTY_INFO) :
    Except EztwError (Option FieldLen) :=
  if rec.Flags &&& TDH_PROPERTY_FLAGS.PropertyParamFixedCount ≠ 0 then
    .ok (some (.lit rec.count))
  else if rec.Flags &&& TDH_PROPERTY_FLAGS.PropertyParamCount ≠ 0 then
    if rec.count > fields.length then .error .fieldIndexOutOfBounds
    else
      match fields.get? rec.count with
      | some f => .ok (some (.ref f.name))
      | none => .error .indexError
  else .ok none

/-- The type-tag resolution of the field loop (lines 368-371): codes at most
`TDH_INTYPE_MAX_VALUE` go through the `TDH_INTYPE` enum constructor (whose
failure would be a Python `ValueError`); larger codes keep the integer. -/
def resolve_intype (v : Nat) : Except EztwError FieldType :=
  if v ≤ TDH_INTYPE_MAX_VALUE then
    match TDH_INTYPE.ofValue v with
    | some t => .ok (.known t)
    | none => .error .valueError
  else .ok (.raw v)

/-- One iteration of the field loop of `tdh_get_provider_events`
(lines 342-373), given the already-decoded fields and the field's name
(`sanitize_name(read_wstring_at(...))`, resolved by the caller since
`sanitize_name` lives in `eztw/common.py`): resolve length, resolve count,
run the `assert count_field is None or length_field is None` statement,
resolve the type, and build the `TdhEventField`. -/
def decode_field (fields : List TdhEventField) (rec : EVENT_PROPERTY_INFO)
    (field_name : List Nat) : Except EztwError TdhEventField :=
  match resolve_length fields rec with
  | .error e => .error e
  | .ok length_field =>
    match resolve_count fields rec with
    | .error e => .error e
    | .ok count_field =>
      if count_field.isSome && length_field.isSome then .error .assertionError
      else
        match resolve_intype rec.InType with
        | .error e => .error e
        | .ok t => .ok ⟨field_name, t, length_field, count_field⟩

/-- The whole field loop: each decoded field is appended to the accumulator
before the next record is processed (later fields may reference it). -/
def decode_fields (props : List (EVENT_PROPERTY_INFO × List Nat))
    (acc : List TdhEventField) : Except EztwError (List TdhEventField) :=
  match props with
  | [] => .ok acc
  | (rec, name) :: rest =>
    match decode_field acc rec name with
    | .error e => .error e
    | .ok f => decode_fields rest (acc ++ [f])

/-- The keyword computation of `tdh_get_provider_events` (line 329):
`trace_event_info.EventDescriptor.Keyword & 0x0000FFFFFFFFFFFF`. -/
def decode_keyword (k : Nat) : Nat := k &&& 0x0000FFFFFFFFFFFF

/-- Removal of trailing spaces: Python's `s.rstrip(' ')`. -/
def rstrip_spaces (s : List Nat) : List Nat :=
  (List.dropWhile (fun c => c == 32) s.reverse).reverse

/-- The event-name resolution of `tdh_get_provider_events` (lines 330-335):
prefer `EventNameOffset` when positive, else `TaskNameOffset` when positive,
else leave the name `None`; strip trailing spaces from the chosen string. -/
def resolve_event_name (buf tail : List Nat) (tei : TRACE_EVENT_INFO) :
    Except EztwError (Option (List Nat)) :=
  if tei.EventNameOffset > 0 then
    match read_wstring_at buf tail tei.EventNameOffset with
    | .error e => .error e
    | .ok s => .ok (some (rstrip_spaces s))
  else if tei.TaskNameOffset > 0 then
    match read_wstring_at buf tail tei.TaskNameOffset with
    | .error e => .error e
    | .ok s => .ok (some (rstrip_spaces s))
  else .ok none

/-- The per-event body of `tdh_get_provider_events` (lines 322-375) after the
`TRACE_EVENT_INFO` header and the property records (with their names) have
been parsed out of the per-event buffer: mask the keyword, resolve the event
name, run the field loop and assemble the `TdhEvent`. -/
def decode_event (provider_guid : GUIDstr) (tei : TRACE_EVENT_INFO)
    (buf tail : List Nat) (props : List (EVENT_PROPERTY_INFO × List Nat)) :
    Except EztwError TdhEvent :=
  let event_keyword := decode_keyword tei.EventDescriptor.Keyword
  match resolve_event_name buf tail tei with
  | .error e => .error e
  | .ok event_name =>
    match decode_fields props [] with
    | .error e => .error e
    | .ok fields =>
      .ok ⟨provider_guid, tei.EventDescriptor.Id, tei.EventDescriptor.Version,
           event_name, event_keyword, fields⟩

/-- A `TRACE_EVENT_INFO` value with the given keyword, `EventNameOffset` and
`TaskNameOffset` and every other numeric field zero (convenience constructor
for concrete instances). -/
def mkTraceEventInfo (keyword eno tno : Nat) : TRACE_EVENT_INFO :=
  ⟨[], [], ⟨0, 0, 0, 0, 0, 0, keyword⟩, 0, 0, 0, 0, 0, tno, 0, 0, 0, 0, 0,
   eno, 0, 0, 0, 0⟩

end Eztw

open Eztw

/-- C1 (code bug): the spec requires `FieldIndexOutOfBounds` whenever a
parameterized-length index is ≥ the number of fields decoded so far, but the
guard in `tdh_get_provider_events` uses a strict `>` comparison; at an index
equal to the current field count the guard passes and `fields[length_index]`
crashes with an unhandled Python `IndexError` (not the `EztwTdhException`).
With one field already decoded: index 1 crashes with `IndexError`, index 2
raises `FieldIndexOutOfBounds`, and index 0 yields the promised reference. -/
theorem c1_param_length_index_boundary :
    resolve_length [⟨[97], .known .INTYPE_UINT32, none, none⟩]
        ⟨TDH_PROPERTY_FLAGS.PropertyParamLength, 0, 8, 0, 0, 0, 1, 0⟩
      = .error .indexError
    ∧ resolve_length [⟨[97], .known .INTYPE_UINT32, none, none⟩]
        ⟨TDH_PROPERTY_FLAGS.PropertyParamLength, 0, 8, 0, 0, 0, 2, 0⟩
      = .error .fieldIndexOutOfBounds
    ∧ resolve_length [⟨[97], .known .INTYPE_UINT32, none, none⟩]
        ⟨TDH_PROPERTY_FLAGS.PropertyParamLength, 0, 8, 0, 0, 0, 0, 0⟩
      = .ok (some (.ref [97]))
    ∧ EztwError.indexError.isEztwTdhException = false := by
  refine ⟨rfl, rfl, rfl, rfl⟩

/-- C3 (code bug): `read_wstring_at` delegates to `ctypes.wstring_at` with no
size bound, so when the buffer holds no NUL terminator after the offset the
scan continues into the memory beyond the buffer: the result depends on that
adjacent memory (`tail`) and is longer than the buffer itself, i.e. cells past
the buffer end are read, contrary to the claim that the scan is bounded by
the buffer length. -/
theorem c3_scan_reads_past_buffer_end :
    read_wstring_at [65] [66, 0] 0 = .ok [65, 66]
    ∧ read_wstring_at [65] [67, 0] 0 = .ok [65, 67]
    ∧ ([65, 66] : List Nat).length > ([65] : List Nat).length := by
  refine ⟨rfl, rfl, by decide⟩

/-- C4: `read_wstring_at` raises `StringOffsetOutOfBounds` ("Wchar string out
of bounds") exactly when the offset is strictly greater than the buffer
length, and for any offset at most the buffer length it returns the
characters from that offset up to, and not including, the first NUL
terminator (no NUL occurs in the returned text). -/
theorem c4_string_reader_error_iff (buf tail : List Nat) (offset : Nat) :
    (read_wstring_at buf tail offset = .error .stringOffsetOutOfBounds ↔
      buf.length < offset)
    ∧ (offset ≤ buf.length →
        read_wstring_at buf tail offset = .ok (wstring_at_body buf tail offset)
        ∧ ∀ c ∈ wstring_at_body buf tail offset, c ≠ 0) := by
  constructor
  · unfold read_wstring_at
    by_cases h : offset > buf.length
    · simp [h]
    · simp [h]
  · intro h
    refine ⟨by unfold read_wstring_at; rw [if_neg (by omega)], ?_⟩
    intro c hc
    have := List.mem_takeWhile_imp hc
    simpa using this

/-- Witness for C4 at a concrete buffer and in-bounds offset. -/
theorem c4_witness :
    read_wstring_at [72, 105, 0, 88] [] 1 = .ok (wstring_at_body [72, 105, 0, 88] [] 1)
    ∧ ∀ c ∈ wstring_at_body [72, 105, 0, 88] [] 1, c ≠ 0 :=
  (c4_string_reader_error_iff [72, 105, 0, 88] [] 1).2 (by decide)

/-- C8: type-tag resolution is total — every in-type code yields a tag, codes
within the enumeration range (≤ `TDH_INTYPE_MAX_VALUE`) map to the named
`TDH_INTYPE` member of that value, and larger codes are kept as the raw
numeric fallback, never an error. -/
theorem c8_intype_resolution_total (v : Nat) :
    (∃ t, resolve_intype v = .ok t)
    ∧ (v ≤ TDH_INTYPE_MAX_VALUE →
        ∃ e, TDH_INTYPE.ofValue v = some e ∧ resolve_intype v = .ok (.known e))
    ∧ (TDH_INTYPE_MAX_VALUE < v → resolve_intype v = .ok (.raw v)) := by
  have hsome : ∀ w, w < 37 → (TDH_INTYPE.ofValue w).isSome := by decide
  have hin : v ≤ TDH_INTYPE_MAX_VALUE →
      ∃ e, TDH_INTYPE.ofValue v = some e ∧ resolve_intype v = .ok (.known e) := by
    intro h
    have h37 : v < 37 := by
      have hmax : TDH_INTYPE_MAX_VALUE = 36 := by decide
      omega
    obtain ⟨e, he⟩ := Option.isSome_iff_exists.1 (hsome v h37)
    refine ⟨e, he, ?_⟩
    unfold resolve_intype
    rw [if_pos h, he]
  have hout : TDH_INTYPE_MAX_VALUE < v → resolve_intype v = .ok (.raw v) := by
    intro h
    unfold resolve_intype
    rw [if_neg (by omega)]
  refine ⟨?_, hin, hout⟩
  by_cases h : v ≤ TDH_INTYPE_MAX_VALUE
  · obtain ⟨e, _, he⟩ := hin h
    exact ⟨.known e, he⟩
  · exact ⟨.raw v, hout (by omega)⟩

/-- Witness for C8 at a known code (8 ↦ UINT32) and an out-of-range code. -/
theorem c8_witness :
    (∃ e, TDH_INTYPE.ofValue 8 = some e ∧ resolve_intype 8 = .ok (.known e))
    ∧ resolve_intype 1000 = .ok (.raw 1000) :=
  ⟨(c8_intype_resolution_total 8).2.1 (by decide),
   (c8_intype_resolution_total 1000).2.2 (by decide)⟩

/-- C9: the decoded keyword is the raw descriptor keyword masked to its low
48 bits (`& 0x0000FFFFFFFFFFFF` equals `% 2^48`), every successfully decoded
event carries that masked keyword, and in particular raw keyword
0xFFFF000000000001 decodes to 0x0000000000000001. -/
theorem c9_keyword_low48 :
    (∀ k, decode_keyword k = k % 2 ^ 48)
    ∧ decode_keyword 0xFFFF000000000001 = 0x0000000000000001
    ∧ (∀ guid tei buf tail props ev,
        decode_event guid tei buf tail props = .ok ev →
        ev.keyword = tei.EventDescriptor.Keyword % 2 ^ 48) := by
  have h1 : ∀ k, decode_keyword k = k % 2 ^ 48 := by
    intro k
    have hm : (0x0000FFFFFFFFFFFF : Nat) = 2 ^ 48 - 1 := by norm_num
    rw [decode_keyword, hm, Nat.and_pow_two_sub_one_eq_mod]
  refine ⟨h1, by rw [h1]; norm_num, ?_⟩
  intro guid tei buf tail props ev h
  unfold decode_event at h
  cases hn : resolve_event_name buf tail tei with
  | error e => rw [hn] at h; cases h
  | ok n =>
    rw [hn] at h
    cases hf : decode_fields props [] with
    | error e => rw [hf] at h; cases h
    | ok fs =>
      rw [hf] at h
      injection h with h2
      rw [← h2]
      exact h1 _

/-- Witness for C9: a concrete event decoded from the 0xFFFF000000000001
keyword carries the masked value. -/
theorem c9_witness :
    (⟨[], 0, 0, none, decode_keyword 0xFFFF000000000001, []⟩ : TdhEvent).keyword
      = 0xFFFF000000000001 % 2 ^ 48 :=
  c9_keyword_low48.2.2 [] (mkTraceEventInfo 0xFFFF000000000001 0 0) [] [] []
    ⟨[], 0, 0, none, decode_keyword 0xFFFF000000000001, []⟩ rfl

/-- C10: when both the event-name offset and the task-name offset are zero,
the event still decodes successfully (provided the field loop succeeds) and
its name slot holds `None`. -/
theorem c10_zero_offsets_give_absent_name (guid buf tail : List Nat)
    (tei : TRACE_EVENT_INFO) (props : List (EVENT_PROPERTY_INFO × List Nat))
    (fs : List TdhEventField) :
    tei.EventNameOffset = 0 → tei.TaskNameOffset = 0 →
    decode_fields props [] = .ok fs →
    ∃ ev, decode_event guid tei buf tail props = .ok ev ∧ ev.name = none := by
  intro h1 h2 hf
  have hn : resolve_event_name buf tail tei = .ok none := by
    unfold resolve_event_name
    rw [h1, h2]
    simp
  unfold decode_event
  rw [hn, hf]
  exact ⟨_, rfl, rfl⟩

/-- Witness for C10 at a concrete header with both offsets zero. -/
theorem c10_witness :
    ∃ ev, decode_event [] (mkTraceEventInfo 5 0 0) [] [] [] = .ok ev
      ∧ ev.name = none :=
  c10_zero_offsets_give_absent_name [] [] [] (mkTraceEventInfo 5 0 0) [] []
    rfl rfl rfl

/-- Helper for C5: a field returned by one iteration of the field loop never
carries both a length and a count. -/
theorem decode_field_ok_not_both (fields : List TdhEventField)
    (rec : EVENT_PROPERTY_INFO) (name : List Nat) (f : TdhEventField)
    (h : decode_field fields rec name = .ok f) :
    ¬(f.length.isSome = true ∧ f.count.isSome = true) := by
  unfold decode_field at h
  split at h
  next => cases h
  next lf hl =>
    split at h
    next => cases h
    next cf hc =>
      split at h
      next => cases h
      next hb =>
        split at h
        next => cases h
        next t ht =>
          injection h with h2
          subst h2
          intro hcon
          exact hb ((Bool.and_eq_true _ _).mpr ⟨hcon.2, hcon.1⟩)

/-- Helper for C5: the invariant propagates through the whole field loop. -/
theorem decode_fields_not_both (props : List (EVENT_PROPERTY_INFO × List Nat)) :
    ∀ (acc l : List TdhEventField),
      (∀ f ∈ acc, ¬(f.length.isSome = true ∧ f.count.isSome = true)) →
      decode_fields props acc = .ok l →
      ∀ f ∈ l, ¬(f.length.isSome = true ∧ f.count.isSome = true) := by
  induction props with
  | nil =>
    intro acc l hacc h
    unfold decode_fields at h
    injection h with h2
    subst h2
    exact hacc
  | cons p rest ih =>
    obtain ⟨rec, name⟩ := p
    intro acc l hacc h
    unfold decode_fields at h
    cases hf : decode_field acc rec name with
    | error e => rw [hf] at h; cases h
    | ok f =>
      rw [hf] at h
      refine ih (acc ++ [f]) l ?_ h
      intro g hg
      rcases List.mem_append.1 hg with hg | hg
      · exact hacc g hg
      · have hgf : g = f := by simpa using hg
        subst hgf
        exact decode_field_ok_not_both acc rec name g hf

/-- C5: no field produced by the field loop ever has both a length and a
count; when both would resolve on one record, the loop stops with the
`assert`'s `AssertionError`, which is not an `EztwTdhException` (i.e. not a
recoverable decode error). -/
theorem c5_no_field_has_both_length_and_count :
    (∀ props l, decode_fields props [] = .ok l →
      ∀ f ∈ l, ¬(f.length.isSome = true ∧ f.count.isSome = true))
    ∧ (∀ fields rec name lv cv,
        resolve_length fields rec = .ok (some lv) →
        resolve_count fields rec = .ok (some cv) →
        decode_field fields rec name = .error .assertionError)
    ∧ EztwError.assertionError.isEztwTdhException = false := by
  refine ⟨?_, ?_, rfl⟩
  · intro props l h
    exact decode_fields_not_both props [] l (by intro f hf; cases hf) h
  · intro fields rec name lv cv hl hc
    unfold decode_field
    rw [hl, hc]
    rfl

/-- Witness for C5: a record carrying both fixed-length and fixed-count flags
trips the assertion, and a concretely decoded field list satisfies the
invariant. -/
theorem c5_witness :
    decode_field [] ⟨0x30, 0, 8, 0, 0, 3, 7, 0⟩ [] = .error .assertionError
    ∧ ∀ f ∈ [(⟨[97], .known .INTYPE_UINT32, none, none⟩ : TdhEventField)],
        ¬(f.length.isSome = true ∧ f.count.isSome = true) :=
  ⟨c5_no_field_has_both_length_and_count.2.1 [] ⟨0x30, 0, 8, 0, 0, 3, 7, 0⟩ []
      (.lit 7) (.lit 3) rfl rfl,
   c5_no_field_has_both_length_and_count.1 [(⟨0, 5, 8, 0, 0, 0, 0, 0⟩, [97])]
      [⟨[97], .known .INTYPE_UINT32, none, none⟩] rfl⟩

/-- C6: the buffer negotiator fails with `SizeQueryFailed` whenever the first
(null-buffer) call reports anything but `ERROR_INSUFFICIENT_BUFFER` —
including success — and otherwise allocates a buffer of exactly the reported
size and calls again, failing with `FillFailed` unless that second call
reports `ERROR_SUCCESS`; only then is the filled buffer (of exactly the
reported size) returned. -/
theorem c6_negotiator_contract (op : QueryOp) :
    (op.q1_status ≠ ERROR_INSUFFICIENT_BUFFER →
      negotiate_buffer op = .error .sizeQueryFailed)
    ∧ (op.q1_status = ERROR_SUCCESS →
      negotiate_buffer op = .error .sizeQueryFailed)
    ∧ (op.q1_status = ERROR_INSUFFICIENT_BUFFER →
        op.q2_status op.q1_size ≠ ERROR_SUCCESS →
        negotiate_buffer op = .error .fillFailed)
    ∧ (op.q1_status = ERROR_INSUFFICIENT_BUFFER →
        op.q2_status op.q1_size = ERROR_SUCCESS →
        ∃ buf, negotiate_buffer op = .ok buf ∧ buf.length = op.q1_size) := by
  have h1 : op.q1_status ≠ ERROR_INSUFFICIENT_BUFFER →
      negotiate_buffer op = .error .sizeQueryFailed := by
    intro h
    unfold negotiate_buffer
    rw [if_pos h]
  refine ⟨h1, ?_, ?_, ?_⟩
  · intro h
    refine h1 ?_
    rw [h]
    unfold ERROR_SUCCESS ERROR_INSUFFICIENT_BUFFER
    omega
  · intro h hq
    unfold negotiate_buffer
    rw [if_neg (by simp [h]), if_pos hq]
  · intro h hq
    unfold negotiate_buffer
    rw [if_neg (by simp [h]), if_neg (by simp [hq])]
    refine ⟨_, rfl, ?_⟩
    simp only [List.length_append, List.length_take, List.length_replicate]
    omega

/-- Witness for C6: a conforming operation (status 122 then 0, reported size
5) yields a buffer of length exactly 5. -/
theorem c6_witness :
    ∃ buf, negotiate_buffer ⟨122, 5, fun _ => 0, fun _ => [1, 2]⟩ = .ok buf
      ∧ buf.length = 5 :=
  (c6_negotiator_contract ⟨122, 5, fun _ => 0, fun _ => [1, 2]⟩).2.2.2 rfl rfl

/-- C7: the event name comes from `EventNameOffset` whenever that offset is
positive, and only when it is zero does the decoder fall back to
`TaskNameOffset`; the chosen string is trimmed of trailing spaces; and a
successfully decoded event's name slot is exactly what this resolution
produces. -/
theorem c7_event_name_priority_and_trim (buf tail : List Nat)
    (tei : TRACE_EVENT_INFO) :
    (0 < tei.EventNameOffset → tei.EventNameOffset ≤ buf.length →
      resolve_event_name buf tail tei =
        .ok (some (rstrip_spaces (wstring_at_body buf tail tei.EventNameOffset))))
    ∧ (tei.EventNameOffset = 0 → 0 < tei.TaskNameOffset →
        tei.TaskNameOffset ≤ buf.length →
      resolve_event_name buf tail tei =
        .ok (some (rstrip_spaces (wstring_at_body buf tail tei.TaskNameOffset))))
    ∧ (∀ guid props ev, decode_event guid tei buf tail props = .ok ev →
        resolve_event_name buf tail tei = .ok ev.name) := by
  refine ⟨?_, ?_, ?_⟩
  · intro h hle
    unfold resolve_event_name
    rw [if_pos h]
    unfold read_wstring_at
    rw [if_neg (by omega)]
  · intro h0 h hle
    unfold resolve_event_name
    rw [if_neg (by omega), if_pos h]
    unfold read_wstring_at
    rw [if_neg (by omega)]
  · intro guid props ev h
    unfold decode_event at h
    cases hn : resolve_event_name buf tail tei with
    | error e => rw [hn] at h; cases h
    | ok n =>
      rw [hn] at h
      cases hf : decode_fields props [] with
      | error e => rw [hf] at h; cases h
      | ok fs =>
        rw [hf] at h
        injection h with h2
        rw [← h2]

/-- Witness for C7: name offset zero and task-name offset 2 over a concrete
buffer yield the string at offset 2 with its trailing space removed. -/
theorem c7_witness :
    resolve_event_name [0, 0, 72, 105, 32, 0] [] (mkTraceEventInfo 0 0 2) =
      .ok (some (rstrip_spaces (wstring_at_body [0, 0, 72, 105, 32, 0] [] 2)))
    ∧ rstrip_spaces (wstring_at_body [0, 0, 72, 105, 32, 0] [] 2) = [72, 105] :=
  ⟨(c7_event_name_priority_and_trim [0, 0, 72, 105, 32, 0] []
      (mkTraceEventInfo 0 0 2)).2.1 rfl (by decide) (by decide), rfl⟩

/-- Helper for C2: the generator raises `ArrayOutOfBounds` exactly when the
requested records do not all fit in the buffer. -/
theorem iterate_array_loop_err_iff (buf : List Nat) (s : Nat) :
    ∀ (n cur : Nat),
      ((iterate_array_loop buf s cur n).2 = some EztwError.arrayOutOfBounds ↔
        0 < n ∧ buf.length < cur + n * s) := by
  intro n
  induction n with
  | zero =>
    intro cur
    simp [iterate_array_loop]
  | succ m ih =>
    intro cur
    unfold iterate_array_loop
    by_cases h : cur + s > buf.length
    · rw [if_pos h]
      simp only [Prod.snd]
      constructor
      · intro _
        refine ⟨Nat.succ_pos m, ?_⟩
        have hs : s ≤ (m + 1) * s := Nat.le_mul_of_pos_left s (Nat.succ_pos m)
        omega
      · intro _
        trivial
    · rw [if_neg h]
      show (iterate_array_loop buf s (cur + s) m).2 = some EztwError.arrayOutOfBounds ↔ _
      rw [ih (cur + s)]
      have hmul : (m + 1) * s = m * s + s := Nat.succ_mul m s
      rw [hmul]
      rcases Nat.eq_zero_or_pos m with hm | hm
      · subst hm
        constructor
        · intro hx
          exact absurd hx.1 (by omega)
        · intro hx
          have hb := hx.2
          rw [Nat.zero_mul] at hb
          omega
      · generalize m * s = k
        omega

/-- Helper for C2: every record the generator yields is a complete,
fully-in-bounds slice of the buffer. -/
theorem iterate_array_loop_mem (buf : List Nat) (s : Nat) :
    ∀ (n cur : Nat), ∀ r ∈ (iterate_array_loop buf s cur n).1,
      ∃ c, c + s ≤ buf.length ∧ r = (buf.drop c).take s ∧ r.length = s := by
  intro n
  induction n with
  | zero =>
    intro cur r hr
    simp [iterate_array_loop] at hr
  | succ m ih =>
    intro cur r hr
    unfold iterate_array_loop at hr
    by_cases h : cur + s > buf.length
    · rw [if_pos h] at hr
      simp at hr
    · rw [if_neg h] at hr
      simp only [List.mem_cons] at hr
      rcases hr with hr | hr
      · subst hr
        refine ⟨cur, by omega, rfl, ?_⟩
        simp only [List.length_take, List.length_drop]
        omega
      · exact ih (cur + s) r hr

/-- C2 (counterexample): an array decode of count 5 over a buffer holding
only 4 one-cell records raises `ArrayOutOfBounds`, but the lazy generator has
already yielded the 4 in-bounds records to its caller, so the claim that the
caller observes zero records (no partial sequence) is false. -/
theorem c2_counterexample :
    (iterate_array_of (List.replicate 4 0) 0 1 5).2 = some EztwError.arrayOutOfBounds
    ∧ (iterate_array_of (List.replicate 4 0) 0 1 5).1 = [[0], [0], [0], [0]]
    ∧ (iterate_array_of (List.replicate 4 0) 0 1 5).1 ≠ [] := by
  refine ⟨rfl, rfl, by decide⟩

/-- C2 (amended): the 5-over-4 decode raises `ArrayOutOfBounds` — in general
the error is raised exactly when the count is positive and the records do not
all fit — and the caller observes the earlier in-bounds records, lazily
yielded before the failure (4 of them in the 5-over-4 instance); every
yielded record is complete (`record_size` cells, entirely inside the
buffer), so no truncated record is ever observed. -/
theorem c2_lazy_yield_then_error :
    (∀ buf offset record_size n,
      ((iterate_array_of buf offset record_size n).2 = some EztwError.arrayOutOfBounds ↔
        0 < n ∧ buf.length < offset + n * record_size)
      ∧ ∀ r ∈ (iterate_array_of buf offset record_size n).1,
          ∃ c, c + record_size ≤ buf.length ∧ r = (buf.drop c).take record_size
            ∧ r.length = record_size)
    ∧ (iterate_array_of (List.replicate 4 0) 0 1 5).1.length = 4 := by
  refine ⟨?_, rfl⟩
  intro buf offset record_size n
  exact ⟨iterate_array_loop_err_iff buf record_size n offset,
         iterate_array_loop_mem buf record_size n offset⟩

/-- Witness for C2's amended theorem at a concrete too-small buffer. -/
theorem c2_witness :
    (iterate_array_of [9, 9, 9] 0 2 2).2 = some EztwError.arrayOutOfBounds :=
  ((c2_lazy_yield_then_error.1 [9, 9, 9] 0 2 2).1).mpr ⟨by decide, by decide⟩
